import Mathlib

/-!
Shallow embedding of the S.C. MAGI System's deliberation and consensus core
(`src/magi/core/decision.py`, `src/magi/core/brain.py`, `src/magi/core/engine.py`).

Python floats carrying confidences and weighted scores are modelled as
rationals; Python dicts (insertion-ordered, unique keys) are modelled as
association lists; a Python function that may raise is modelled as returning
`Except String α` with the exception text on the `error` side.  The reasoning
backend (`_call_llm`, `json.loads`) is opaque to the core and is passed in as
data: the text it returns, and a decoder standing for `json.loads`.
Wall-clock fields (`timestamp`, `processing_time_ms`) are omitted.
-/

namespace Magi

/-- `VerdictType` enum from `decision.py`. -/
inductive VerdictType where
  | approve
  | reject
  | conditional
  | abstain
  | defer
  | info
deriving DecidableEq, Fintype

/-- `.value` string of each `VerdictType` member. -/
def VerdictType.value : VerdictType → String
  | .approve => "approve"
  | .reject => "reject"
  | .conditional => "conditional"
  | .abstain => "abstain"
  | .defer => "defer"
  | .info => "info"

/-- `ConsensusType` enum from `decision.py`. -/
inductive ConsensusType where
  | unanimous
  | majority
  | deadlock
  | conditional
  | deferred
  | informational
deriving DecidableEq, Fintype

/-- `.value` string of each `ConsensusType` member. -/
def ConsensusType.value : ConsensusType → String
  | .unanimous => "unanimous"
  | .majority => "majority"
  | .deadlock => "deadlock"
  | .conditional => "conditional"
  | .deferred => "deferred"
  | .informational => "informational"

/-- `Argument` dataclass from `decision.py` (evidence/counterpoints omitted:
they are never read by the core algorithms). -/
structure Argument where
  claim : String
  reasoning : String
  confidence : ℚ := 7/10
deriving DecidableEq

/-- `Verdict` dataclass from `decision.py`. -/
structure Verdict where
  brain_name : String
  verdict_type : VerdictType
  confidence : ℚ
  summary : String
  reasoning : String
  arguments : List Argument := []
  conditions : List String := []
  reservations : List String := []
  deliberation_round : Nat := 1
  responses_to_others : List (String × String) := []
deriving DecidableEq

/-- `Verdict.weighted_score` from `decision.py`. -/
def Verdict.weighted_score (v : Verdict) : ℚ :=
  match v.verdict_type with
  | .approve => v.confidence
  | .reject => -v.confidence
  | .conditional => v.confidence * (1/2)
  | _ => 0

/-- `DeliberationRound` dataclass from `decision.py` (`synthesis` field unused
by the core algorithms and omitted). -/
structure DeliberationRound where
  round_number : Nat
  verdicts : List (String × Verdict)
  cross_examinations : List (String × List (String × String)) := []
deriving DecidableEq

/-- The list `[v.verdict_type for v in self.verdicts.values()]` computed at the
head of both round properties in `decision.py`. -/
def DeliberationRound.verdict_types (r : DeliberationRound) : List VerdictType :=
  r.verdicts.map (fun p => p.2.verdict_type)

/-- The distinct elements of a list in first-occurrence order: the key order of
Python's `set(...)` construction / `collections.Counter` over that list. -/
def firstOccAux : List VerdictType → List VerdictType → List VerdictType
  | _, [] => []
  | seen, t :: ts =>
    if seen.contains t then firstOccAux seen ts
    else t :: firstOccAux (t :: seen) ts

/-- Distinct verdict types in first-occurrence order. -/
def firstOccKeys (ts : List VerdictType) : List VerdictType :=
  firstOccAux [] ts

/-- `Counter(types).most_common(1)` from `DeliberationRound.majority_verdict`:
the first key (in first-encounter order) of maximal multiplicity, with its
count; `none` on the empty list. -/
def mostCommon (types : List VerdictType) : Option (VerdictType × Nat) :=
  (firstOccKeys types).foldl
    (fun acc t =>
      match acc with
      | none => some (t, types.count t)
      | some (t0, c0) =>
        if c0 < types.count t then some (t, types.count t) else some (t0, c0))
    none

/-- `DeliberationRound.has_consensus`: `len(set(types)) == 1`. -/
def DeliberationRound.has_consensus (r : DeliberationRound) : Bool :=
  (firstOccKeys r.verdict_types).length == 1

/-- `DeliberationRound.majority_verdict`: the most common verdict type when its
count is `>= 2`, else `None`. -/
def DeliberationRound.majority_verdict (r : DeliberationRound) : Option VerdictType :=
  match mostCommon r.verdict_types with
  | some (t, c) => if 2 ≤ c then some t else none
  | none => none

/-- `Decision` dataclass from `decision.py` (id/timestamp/processing time
omitted: opaque token and wall-clock metadata). -/
structure Decision where
  question : String := ""
  question_type : String := "unknown"
  rounds : List DeliberationRound := []
  consensus_type : ConsensusType := .deadlock
  final_verdict : Option VerdictType := none
  final_answer : String := ""
  final_verdicts : List (String × Verdict) := []
  synthesis : String := ""
  key_agreements : List String := []
  key_disagreements : List String := []
  conditions : List String := []
deriving DecidableEq

/-- `EngineConfig` dataclass from `engine.py` (model/temperature omitted:
backend parameters, opaque to the algorithm). -/
structure EngineConfig where
  max_deliberation_rounds : Nat := 2
  enable_cross_examination : Bool := true
  parallel_processing : Bool := true
  deadlock_resolution : String := "majority"
deriving DecidableEq

/-- `MAGIEngine._resolve_deadlock` from `engine.py`. -/
def resolve_deadlock (cfg : EngineConfig) (round_result : DeliberationRound) : VerdictType :=
  if cfg.deadlock_resolution = "cautious" then .reject
  else if cfg.deadlock_resolution = "optimistic" then .approve
  else
    let total_score : ℚ := (round_result.verdicts.map (fun p => p.2.weighted_score)).sum
    if 0 < total_score then .approve
    else if total_score < 0 then .reject
    else .abstain

/-- `MAGIEngine._synthesize_informational_response` from `engine.py`. -/
def synthesize_informational_response (decision : Decision) : String :=
  String.intercalate "\n\n"
    (decision.final_verdicts.map (fun p => "**" ++ p.1.toUpper ++ "**: " ++ p.2.reasoning))

/-- `MAGIEngine._generate_synthesis` from `engine.py`, in its deterministic
no-backend fallback branch (the backend branch returns opaque text that the
core never inspects). -/
def generate_synthesis (decision : Decision) : String :=
  String.intercalate " "
    ((decision.consensus_type.value.toUpper ++ " decision reached.") ::
      decision.final_verdicts.map (fun p => p.1 ++ ": " ++ p.2.summary))

/-- `MAGIEngine._identify_agreements_and_disagreements` from `engine.py`. -/
def identify_agreements_and_disagreements (decision : Decision) : Decision :=
  let verdicts := decision.final_verdicts.map (fun p => p.2)
  let types := verdicts.map (fun v => v.verdict_type)
  if (firstOccKeys types).length == 1 then
    { decision with
      key_agreements := decision.key_agreements ++
        ["All three brains agree: " ++ ((types.head?.map VerdictType.value).getD "")] }
  else
    { decision with
      key_disagreements := decision.key_disagreements ++
        verdicts.filterMap (fun v =>
          if some v.verdict_type ≠ decision.final_verdict then
            some (v.brain_name ++ " dissents with " ++ v.verdict_type.value ++ ": " ++ v.summary)
          else none) }

/-- `MAGIEngine._synthesize_decision` from `engine.py`: classifies the final
round into a consensus type, fixes the final verdict (resolving deadlocks),
collects conditions, and fills the synthesis fields. -/
def synthesize_decision (cfg : EngineConfig) (decision : Decision) : Decision :=
  match decision.rounds.getLast? with
  | none => decision
  | some final_round =>
    let decision := { decision with final_verdicts := final_round.verdicts }
    let verdict_types := final_round.verdict_types
    let unique_types := firstOccKeys verdict_types
    if verdict_types.all (fun vt => vt == VerdictType.info) then
      let decision := { decision with
        consensus_type := ConsensusType.informational,
        final_verdict := some VerdictType.info }
      { decision with final_answer := synthesize_informational_response decision }
    else
      let decision :=
        if unique_types.length == 1 then
          { decision with
            consensus_type := ConsensusType.unanimous,
            final_verdict := verdict_types.head? }
        else
          match final_round.majority_verdict with
          | some m =>
            { decision with
              consensus_type := ConsensusType.majority,
              final_verdict := some m }
          | none =>
            if unique_types.contains VerdictType.conditional then
              let affirmative := verdict_types.countP
                (fun vt => vt == VerdictType.approve || vt == VerdictType.conditional)
              if 2 ≤ affirmative then
                { decision with
                  consensus_type := ConsensusType.conditional,
                  final_verdict := some VerdictType.conditional }
              else
                { decision with
                  consensus_type := ConsensusType.deadlock,
                  final_verdict := some (resolve_deadlock cfg final_round) }
            else
              { decision with
                consensus_type := ConsensusType.deadlock,
                final_verdict := some (resolve_deadlock cfg final_round) }
      let decision := { decision with
        conditions := decision.conditions ++
          (final_round.verdicts.map (fun (p : String × Verdict) => p.2.conditions)).flatten }
      let decision := { decision with synthesis := generate_synthesis decision }
      let decision := { decision with final_answer := decision.synthesis }
      identify_agreements_and_disagreements decision

/-- `pat` occurs as a contiguous substring of `s` (Python's `pat in s`),
on the character lists. -/
def hasSub (pat : List Char) : List Char → Bool
  | [] => pat.isEmpty
  | c :: rest => pat == (c :: rest).take pat.length || hasSub pat rest

/-- Substring containment on strings. -/
def containsSub (s pat : String) : Bool :=
  hasSub pat.toList s.toList

/-- The whitespace characters Python's `str.strip()` removes: the characters
for which `str.isspace()` holds (ASCII whitespace including `\x0b`/`\x0c` and
the `\x1c`-`\x1f` separators, plus the Unicode space characters). -/
def isSpaceChar (c : Char) : Bool :=
  c == ' ' || c == '\t' || c == '\n' || c == '\r' || c == '\x0b' || c == '\x0c' ||
  ('\x1c' ≤ c && c ≤ '\x1f') || c == '\x85' || c == '\xa0' || c == '\u1680' ||
  ('\u2000' ≤ c && c ≤ '\u200a') || c == '\u2028' || c == '\u2029' ||
  c == '\u202f' || c == '\u205f' || c == '\u3000'

/-- Python's `str.lower()` on one ASCII character. -/
def lowerChar (c : Char) : Char :=
  if 'A' ≤ c && c ≤ 'Z' then Char.ofNat (c.toNat + 32) else c

/-- Python's `str.lower()` on an ASCII string. -/
def strLower (s : String) : String :=
  ⟨s.data.map lowerChar⟩

/-- Python's `.strip().lower()` applied to an ASCII string: drop surrounding
whitespace and lowercase. -/
def stripLower (s : String) : String :=
  strLower ⟨((s.data.dropWhile isSpaceChar).reverse.dropWhile isSpaceChar).reverse⟩

/-- The fixed-shape record a brain expects back from the backend's structured
output, as read by `Brain._parse_verdict_response` via `data.get(...)`: each
field is `none` when the key is absent from the decoded JSON object. -/
structure ArgData where
  claim : Option String := none
  reasoning : Option String := none
  confidence : Option ℚ := none
deriving DecidableEq

/-- Decoded JSON object shape for a verdict response (`brain.py`). -/
structure VerdictData where
  verdict : Option String := none
  confidence : Option ℚ := none
  summary : Option String := none
  reasoning : Option String := none
  key_arguments : Option (List ArgData) := none
  conditions : Option (List String) := none
  reservations : Option (List String) := none
  responses_to_others : Option (List (String × String)) := none
deriving DecidableEq

/-- The `verdict_map` dictionary lookup in `Brain._parse_verdict_response`. -/
def verdict_map (s : String) : Option VerdictType :=
  if s = "approve" then some .approve
  else if s = "reject" then some .reject
  else if s = "conditional" then some .conditional
  else if s = "abstain" then some .abstain
  else if s = "defer" then some .defer
  else if s = "info" then some .info
  else if s = "yes" then some .approve
  else if s = "no" then some .reject
  else none

/-- The outcome of `json.loads(response)` as `Brain._parse_verdict_response`
consumes it.  `jsonError` is a `json.JSONDecodeError` (caught: it yields the
degraded Info/0.5 verdict).  `illTyped err` is the reply that decodes to a
JSON value that is not an object of the expected shape — a non-dict, a
non-string `verdict`, a non-list `key_arguments`, etc.: the source's
`data.get(...)`/`.lower()`/iteration then raises an uncaught
`AttributeError`/`TypeError` with text `err`.  `object data` is a JSON object
whose present fields have the expected types. -/
inductive JsonOutcome where
  | jsonError
  | illTyped (err : String)
  | object (data : VerdictData)
deriving DecidableEq

/-- The fallback Verdict built in the `except json.JSONDecodeError` arm of
`Brain._parse_verdict_response`. -/
def degraded_parse_verdict (name response : String) (round_number : Nat) : Verdict :=
  { brain_name := name
    verdict_type := .info
    confidence := 1/2
    summary := "Unable to parse response"
    reasoning := response
    deliberation_round := round_number }

/-- The main arm of `Brain._parse_verdict_response`: build a Verdict from a
well-shaped decoded JSON object, with the source's `data.get` defaults. -/
def parse_verdict_data (name : String) (data : VerdictData) (round_number : Nat) : Verdict :=
  let verdict_str := strLower (data.verdict.getD "info")
  let vt := (verdict_map verdict_str).getD .info
  let arguments := (data.key_arguments.getD []).map (fun a =>
    { claim := a.claim.getD ""
      reasoning := a.reasoning.getD ""
      confidence := a.confidence.getD (7/10) : Argument })
  { brain_name := name
    verdict_type := vt
    confidence := data.confidence.getD (7/10)
    summary := data.summary.getD ""
    reasoning := data.reasoning.getD ""
    arguments := arguments
    conditions := data.conditions.getD []
    reservations := data.reservations.getD []
    deliberation_round := round_number
    responses_to_others := data.responses_to_others.getD [] }

/-- `Brain._parse_verdict_response` from `brain.py`.  `decode` stands for
`json.loads` plus the shape of what it returned (see `JsonOutcome`).  Only
`json.JSONDecodeError` is caught and degraded; a decoded value of the wrong
shape makes the field accesses raise, and that exception (`error err`) leaves
`_parse_verdict_response` uncaught. -/
def parse_verdict_response (name : String) (decode : String → JsonOutcome)
    (response : String) (round_number : Nat) : Except String Verdict :=
  match decode response with
  | .jsonError => .ok (degraded_parse_verdict name response round_number)
  | .illTyped err => .error err
  | .object data => .ok (parse_verdict_data name data round_number)

/-- `Brain.form_verdict` from `brain.py`.  The prompt building is pure string
plumbing consumed only by the backend; `call_llm` is the outcome of
`self._call_llm(messages)`: `error e` when that call raises (no client
configured, or the backend request fails), `ok response` otherwise.  Note the
source wraps `_call_llm` in no try/except: its exception leaves
`form_verdict`, as does a wrong-shape exception from
`_parse_verdict_response`. -/
def form_verdict (name : String) (decode : String → JsonOutcome)
    (call_llm : Except String String) (round_number : Nat) : Except String Verdict :=
  match call_llm with
  | .error e => .error e
  | .ok response => parse_verdict_response name decode response round_number

/-- One brain as seen by the engine: the outcome of its `form_verdict`
call as a function of question, round number and (filtered) other
positions — `error e` models the call raising with message `e`. -/
abbrev BrainCall := String → Nat → Option (List (String × String)) → Except String Verdict

/-- The error verdict built in the `except` arm of
`MAGIEngine._get_verdicts_parallel` / `_get_verdicts_sequential`. -/
def error_verdict (name : String) (e : String) (round_number : Nat) : Verdict :=
  { brain_name := name
    verdict_type := .abstain
    confidence := 0
    summary := "Error: " ++ e
    reasoning := e
    deliberation_round := round_number }

/-- The `other_positions` filter applied per brain in both verdict
collectors: drop the brain's own entry (case-insensitive name match). -/
def filter_positions (other_positions : Option (List (String × String)))
    (name : String) : Option (List (String × String)) :=
  other_positions.map (fun ops => ops.filter (fun q => strLower q.1 != strLower name))

/-- `MAGIEngine._get_verdicts_parallel` / `_get_verdicts_sequential` from
`engine.py`: one verdict per brain, keyed by brain name; a call that raises is
converted to `error_verdict` in place.  (The parallel variant's thread pool is
a fan-out/fan-in barrier whose results are keyed by name; the per-name
association is order-independent, so both collectors produce the same map.) -/
def get_verdicts (brains : List (String × BrainCall)) (question : String)
    (round_number : Nat) (other_positions : Option (List (String × String))) :
    List (String × Verdict) :=
  brains.map (fun p =>
    match p.2 question round_number (filter_positions other_positions p.1) with
    | .ok v => (p.1, v)
    | .error e => (p.1, error_verdict p.1 e round_number))

/-- `MAGIEngine._run_deliberation_round` from `engine.py`.  Cross-examination
(when enabled and not the last round) only fills the round's
`cross_examinations` text map via isolated per-pair backend calls; no claim
reads it, and a failing pair becomes an error string, so it is left at its
default here. -/
def run_deliberation_round (brains : List (String × BrainCall)) (question : String)
    (round_number : Nat) (previous_round : Option DeliberationRound) : DeliberationRound :=
  let other_positions :=
    match previous_round with
    | some prev =>
      if 1 < round_number then
        some (prev.verdicts.map (fun p => (p.1, p.2.summary ++ " " ++ p.2.reasoning.take 500)))
      else none
    | none => none
  { round_number := round_number
    verdicts := get_verdicts brains question round_number other_positions }

/-- The round loop of `MAGIEngine.deliberate`:
`for round_num in range(1, max+1): append round; break early on consensus
before the last round`.  `fuel` counts the remaining loop iterations
(`max - round_num + 1` at entry). -/
def runRoundsAux (roundFn : Nat → Option DeliberationRound → DeliberationRound)
    (maxR : Nat) : Nat → Nat → Option DeliberationRound → List DeliberationRound
  | 0, _, _ => []
  | fuel + 1, round_num, prev =>
    let round_result := roundFn round_num prev
    if round_result.has_consensus && decide (round_num < maxR) then [round_result]
    else round_result :: runRoundsAux roundFn maxR fuel (round_num + 1) (some round_result)

/-- The rounds accumulated by one `deliberate` call. -/
def run_rounds (cfg : EngineConfig)
    (roundFn : Nat → Option DeliberationRound → DeliberationRound) : List DeliberationRound :=
  runRoundsAux roundFn cfg.max_deliberation_rounds cfg.max_deliberation_rounds 1 none

/-- The response handling of `MAGIEngine.classify_question` from `engine.py`:
strip and lowercase the classifier's reply, keep it when it is one of the five
valid types, else fall back on a yes/no keyword scan, else default to
`"open"`. -/
def classify_from_response (response : String) : String :=
  let result := stripLower response
  if (["yes_no", "open", "analytical", "ethical", "predictive"]).contains result then result
  else if containsSub result "yes" || containsSub result "no" then "yes_no"
  else "open"

/-- `MAGIEngine.deliberate` from `engine.py`: classify, run the round loop,
synthesize.  `classifier_response` is the backend's reply to the
classification prompt; brain resets, observer hooks and wall-clock stamping
carry no decision content and are omitted. -/
def deliberate (cfg : EngineConfig) (brains : List (String × BrainCall))
    (question : String) (classifier_response : String) : Decision :=
  let decision : Decision := { question := question }
  let decision := { decision with question_type := classify_from_response classifier_response }
  let decision := { decision with rounds := run_rounds cfg (run_deliberation_round brains question) }
  synthesize_decision cfg decision

/-! ### Helper lemmas -/

theorem identify_consensus_eq (d : Decision) :
    (identify_agreements_and_disagreements d).consensus_type = d.consensus_type := by
  simp only [identify_agreements_and_disagreements]
  split <;> rfl

theorem identify_final_verdict_eq (d : Decision) :
    (identify_agreements_and_disagreements d).final_verdict = d.final_verdict := by
  simp only [identify_agreements_and_disagreements]
  split <;> rfl

theorem identify_rounds_eq (d : Decision) :
    (identify_agreements_and_disagreements d).rounds = d.rounds := by
  simp only [identify_agreements_and_disagreements]
  split <;> rfl

theorem identify_conditions_eq (d : Decision) :
    (identify_agreements_and_disagreements d).conditions = d.conditions := by
  simp only [identify_agreements_and_disagreements]
  split <;> rfl

theorem unanimous_shape :
    ∀ k : VerdictType, k ≠ VerdictType.info →
      (([k, k, k]).all (fun vt => vt == VerdictType.info)) = false ∧
        firstOccKeys [k, k, k] = [k] := by
  decide

/-! ### Claims -/

/-- C1: for a deliberation whose final round's three verdicts all share verdict
kind `k` with `k ≠ Info`, synthesis sets the consensus kind to Unanimous and
the final verdict to `k`. -/
theorem c1_unanimous_nonInfo (cfg : EngineConfig) (d : Decision) (r : DeliberationRound)
    (k : VerdictType) (hlast : d.rounds.getLast? = some r)
    (htypes : r.verdict_types = [k, k, k]) (hk : k ≠ VerdictType.info) :
    (synthesize_decision cfg d).consensus_type = ConsensusType.unanimous ∧
    (synthesize_decision cfg d).final_verdict = some k := by
  obtain ⟨hall, hfoc⟩ := unanimous_shape k hk
  simp only [synthesize_decision, hlast, htypes, hall, hfoc, List.length_cons,
    List.length_nil, Bool.false_eq_true, if_false, identify_consensus_eq,
    identify_final_verdict_eq, List.head?_cons]
  exact ⟨rfl, rfl⟩

/-- A concrete verdict for use in witnesses. -/
def mkV (n : String) (t : VerdictType) (c : ℚ) (conds : List String := []) : Verdict :=
  { brain_name := n
    verdict_type := t
    confidence := c
    summary := "s-" ++ n
    reasoning := "r-" ++ n
    conditions := conds }

/-- Concrete all-Approve final round for the C1 witness. -/
def w1round : DeliberationRound :=
  ⟨1, [("melchior", mkV "melchior" .approve (9/10)),
       ("balthasar", mkV "balthasar" .approve (4/5)),
       ("casper", mkV "casper" .approve (7/10))], []⟩

theorem c1_unanimous_nonInfo_witness :
    (synthesize_decision {} { rounds := [w1round] }).consensus_type = ConsensusType.unanimous ∧
    (synthesize_decision {} { rounds := [w1round] }).final_verdict = some VerdictType.approve :=
  c1_unanimous_nonInfo {} { rounds := [w1round] } w1round VerdictType.approve rfl rfl
    (by decide)

theorem majority_shape :
    ∀ k m : VerdictType, m ≠ k →
      ((([k, k, m]).all (fun vt => vt == VerdictType.info)) = false ∧
        (firstOccKeys [k, k, m]).length = 2 ∧ mostCommon [k, k, m] = some (k, 2)) ∧
      ((([k, m, k]).all (fun vt => vt == VerdictType.info)) = false ∧
        (firstOccKeys [k, m, k]).length = 2 ∧ mostCommon [k, m, k] = some (k, 2)) ∧
      ((([m, k, k]).all (fun vt => vt == VerdictType.info)) = false ∧
        (firstOccKeys [m, k, k]).length = 2 ∧ mostCommon [m, k, k] = some (k, 2)) := by
  decide

/-- C2: for a final round in which exactly two of the three verdicts share one
kind `k` and the third has a different kind `m`, synthesis sets the consensus
kind to Majority and the final verdict to `k`. -/
theorem c2_majority_two_of_three (cfg : EngineConfig) (d : Decision)
    (r : DeliberationRound) (k m : VerdictType) (hlast : d.rounds.getLast? = some r)
    (hm : m ≠ k)
    (htypes : r.verdict_types = [k, k, m] ∨ r.verdict_types = [k, m, k] ∨
      r.verdict_types = [m, k, k]) :
    (synthesize_decision cfg d).consensus_type = ConsensusType.majority ∧
    (synthesize_decision cfg d).final_verdict = some k := by
  have hshapes := majority_shape k m hm
  rcases htypes with ht | ht | ht
  · obtain ⟨hall, hlen2, hmc⟩ := hshapes.1
    have hmaj : r.majority_verdict = some k := by
      simp [DeliberationRound.majority_verdict, ht, hmc]
    simp [synthesize_decision, hlast, ht, hall, hlen2, hmaj,
      identify_consensus_eq, identify_final_verdict_eq]
  · obtain ⟨hall, hlen2, hmc⟩ := hshapes.2.1
    have hmaj : r.majority_verdict = some k := by
      simp [DeliberationRound.majority_verdict, ht, hmc]
    simp [synthesize_decision, hlast, ht, hall, hlen2, hmaj,
      identify_consensus_eq, identify_final_verdict_eq]
  · obtain ⟨hall, hlen2, hmc⟩ := hshapes.2.2
    have hmaj : r.majority_verdict = some k := by
      simp [DeliberationRound.majority_verdict, ht, hmc]
    simp [synthesize_decision, hlast, ht, hall, hlen2, hmaj,
      identify_consensus_eq, identify_final_verdict_eq]

/-- Concrete Approve/Approve/Reject final round for the C2 witness. -/
def w2round : DeliberationRound :=
  ⟨1, [("melchior", mkV "melchior" .approve (9/10)),
       ("balthasar", mkV "balthasar" .approve (3/5)),
       ("casper", mkV "casper" .reject (4/5))], []⟩

theorem c2_majority_two_of_three_witness :
    (synthesize_decision {} { rounds := [w2round] }).consensus_type = ConsensusType.majority ∧
    (synthesize_decision {} { rounds := [w2round] }).final_verdict = some VerdictType.approve :=
  c2_majority_two_of_three {} { rounds := [w2round] } w2round VerdictType.approve
    VerdictType.reject rfl (by decide) (Or.inl rfl)

theorem synth_deadlock_final (cfg : EngineConfig) (d : Decision) (r : DeliberationRound)
    (hlast : d.rounds.getLast? = some r)
    (hdl : (synthesize_decision cfg d).consensus_type = ConsensusType.deadlock) :
    (synthesize_decision cfg d).final_verdict = some (resolve_deadlock cfg r) := by
  simp only [synthesize_decision, hlast] at hdl ⊢
  by_cases hc : (r.verdict_types.all (fun vt => vt == VerdictType.info)) = true
  · simp [hc] at hdl
  · rw [Bool.not_eq_true] at hc
    simp only [hc, Bool.false_eq_true, if_false, identify_consensus_eq] at hdl
    simp only [hc, Bool.false_eq_true, if_false, identify_final_verdict_eq]
    repeat' split at hdl
    all_goals try simp_all
    all_goals rw [if_neg (by omega)]

/-- C3: whenever synthesis classifies the decision as Deadlock and the
configured `deadlock_resolution` is `"majority"`, the final verdict is the
sign of the sum of the final round's weighted scores (positive: Approve,
negative: Reject, zero: Abstain), where a verdict scores `+confidence` for
Approve, `-confidence` for Reject, `confidence * 0.5` for Conditional, and `0`
for every other kind. -/
theorem c3_deadlock_majority_weighted_sign (cfg : EngineConfig) (d : Decision)
    (r : DeliberationRound) (hlast : d.rounds.getLast? = some r)
    (hres : cfg.deadlock_resolution = "majority")
    (hdl : (synthesize_decision cfg d).consensus_type = ConsensusType.deadlock) :
    (synthesize_decision cfg d).final_verdict =
      some (
        let S : ℚ := (r.verdicts.map (fun p =>
          match p.2.verdict_type with
          | VerdictType.approve => p.2.confidence
          | VerdictType.reject => -p.2.confidence
          | VerdictType.conditional => p.2.confidence * (1/2)
          | _ => (0 : ℚ))).sum
        if 0 < S then VerdictType.approve
        else if S < 0 then VerdictType.reject
        else VerdictType.abstain) := by
  rw [synth_deadlock_final cfg d r hlast hdl]
  congr 1
  simp only [resolve_deadlock, hres]
  norm_num
  rfl

/-- Concrete Approve/Reject/Abstain deadlocked final round for the C3
witness: weighted scores 4/5, -3/10, 0 sum to 1/2 > 0. -/
def w3round : DeliberationRound :=
  ⟨1, [("melchior", mkV "melchior" .approve (4/5)),
       ("balthasar", mkV "balthasar" .reject (3/10)),
       ("casper", mkV "casper" .abstain (1/2))], []⟩

theorem c3_deadlock_majority_weighted_sign_witness :
    (synthesize_decision {} { rounds := [w3round] }).consensus_type = ConsensusType.deadlock ∧
    (synthesize_decision {} { rounds := [w3round] }).final_verdict = some VerdictType.approve := by
  refine ⟨by decide, ?_⟩
  have h := c3_deadlock_majority_weighted_sign {} { rounds := [w3round] } w3round rfl rfl
    (by decide)
  refine h.trans ?_
  norm_num [w3round, mkV]

/-- C4: for a three-brain round, whichever of the three agents' `form_verdict`
calls raises, the round's verdict collection still yields one verdict per
agent — the failing agent's slot holds a verdict of kind Abstain with
confidence 0.0 and the error text as reasoning, the other agents' verdicts
are collected unchanged, and the failure never escapes the collector. -/
theorem c4_per_agent_isolation (q : String) (rn : Nat)
    (pos : Option (List (String × String)))
    (n1 n2 n3 : String) (f1 f2 f3 : BrainCall) (e : String) (va vb : Verdict) :
    ((f1 q rn (filter_positions pos n1) = Except.error e →
      f2 q rn (filter_positions pos n2) = Except.ok va →
      f3 q rn (filter_positions pos n3) = Except.ok vb →
      get_verdicts [(n1, f1), (n2, f2), (n3, f3)] q rn pos =
        [(n1, error_verdict n1 e rn), (n2, va), (n3, vb)]) ∧
     (f1 q rn (filter_positions pos n1) = Except.ok va →
      f2 q rn (filter_positions pos n2) = Except.error e →
      f3 q rn (filter_positions pos n3) = Except.ok vb →
      get_verdicts [(n1, f1), (n2, f2), (n3, f3)] q rn pos =
        [(n1, va), (n2, error_verdict n2 e rn), (n3, vb)]) ∧
     (f1 q rn (filter_positions pos n1) = Except.ok va →
      f2 q rn (filter_positions pos n2) = Except.ok vb →
      f3 q rn (filter_positions pos n3) = Except.error e →
      get_verdicts [(n1, f1), (n2, f2), (n3, f3)] q rn pos =
        [(n1, va), (n2, vb), (n3, error_verdict n3 e rn)])) ∧
    ∀ n : String, (error_verdict n e rn).verdict_type = VerdictType.abstain ∧
      (error_verdict n e rn).confidence = 0 ∧ (error_verdict n e rn).reasoning = e := by
  refine ⟨⟨?_, ?_, ?_⟩, fun n => ⟨rfl, rfl, rfl⟩⟩
  all_goals
    intro h1 h2 h3
    simp [get_verdicts, h1, h2, h3]

theorem c4_per_agent_isolation_witness :
    get_verdicts
      [("melchior", fun _ _ _ => Except.error "timeout"),
       ("balthasar", fun _ _ _ => Except.ok (mkV "balthasar" .approve (9/10))),
       ("casper", fun _ _ _ => Except.ok (mkV "casper" .reject (4/5)))] "q" 1 none =
      [("melchior", error_verdict "melchior" "timeout" 1),
       ("balthasar", mkV "balthasar" .approve (9/10)),
       ("casper", mkV "casper" .reject (4/5))] ∧
    get_verdicts
      [("melchior", fun _ _ _ => Except.ok (mkV "melchior" .approve (9/10))),
       ("balthasar", fun _ _ _ => Except.error "timeout"),
       ("casper", fun _ _ _ => Except.ok (mkV "casper" .reject (4/5)))] "q" 1 none =
      [("melchior", mkV "melchior" .approve (9/10)),
       ("balthasar", error_verdict "balthasar" "timeout" 1),
       ("casper", mkV "casper" .reject (4/5))] ∧
    get_verdicts
      [("melchior", fun _ _ _ => Except.ok (mkV "melchior" .approve (9/10))),
       ("balthasar", fun _ _ _ => Except.ok (mkV "balthasar" .reject (4/5))),
       ("casper", fun _ _ _ => Except.error "timeout")] "q" 1 none =
      [("melchior", mkV "melchior" .approve (9/10)),
       ("balthasar", mkV "balthasar" .reject (4/5)),
       ("casper", error_verdict "casper" "timeout" 1)] ∧
    (error_verdict "casper" "timeout" 1).verdict_type = VerdictType.abstain ∧
    (error_verdict "casper" "timeout" 1).confidence = 0 ∧
    (error_verdict "casper" "timeout" 1).reasoning = "timeout" :=
  ⟨(c4_per_agent_isolation "q" 1 none "melchior" "balthasar" "casper"
      (fun _ _ _ => Except.error "timeout")
      (fun _ _ _ => Except.ok (mkV "balthasar" .approve (9/10)))
      (fun _ _ _ => Except.ok (mkV "casper" .reject (4/5))) "timeout"
      (mkV "balthasar" .approve (9/10)) (mkV "casper" .reject (4/5))).1.1 rfl rfl rfl,
   (c4_per_agent_isolation "q" 1 none "melchior" "balthasar" "casper"
      (fun _ _ _ => Except.ok (mkV "melchior" .approve (9/10)))
      (fun _ _ _ => Except.error "timeout")
      (fun _ _ _ => Except.ok (mkV "casper" .reject (4/5))) "timeout"
      (mkV "melchior" .approve (9/10)) (mkV "casper" .reject (4/5))).1.2.1 rfl rfl rfl,
   (c4_per_agent_isolation "q" 1 none "melchior" "balthasar" "casper"
      (fun _ _ _ => Except.ok (mkV "melchior" .approve (9/10)))
      (fun _ _ _ => Except.ok (mkV "balthasar" .reject (4/5)))
      (fun _ _ _ => Except.error "timeout") "timeout"
      (mkV "melchior" .approve (9/10)) (mkV "balthasar" .reject (4/5))).1.2.2 rfl rfl rfl,
   ((c4_per_agent_isolation "q" 1 none "melchior" "balthasar" "casper"
      (fun _ _ _ => Except.error "timeout") (fun _ _ _ => Except.error "timeout")
      (fun _ _ _ => Except.error "timeout") "timeout"
      (mkV "melchior" .approve (9/10)) (mkV "balthasar" .reject (4/5))).2 "casper").1,
   ((c4_per_agent_isolation "q" 1 none "melchior" "balthasar" "casper"
      (fun _ _ _ => Except.error "timeout") (fun _ _ _ => Except.error "timeout")
      (fun _ _ _ => Except.error "timeout") "timeout"
      (mkV "melchior" .approve (9/10)) (mkV "balthasar" .reject (4/5))).2 "casper").2.1,
   ((c4_per_agent_isolation "q" 1 none "melchior" "balthasar" "casper"
      (fun _ _ _ => Except.error "timeout") (fun _ _ _ => Except.error "timeout")
      (fun _ _ _ => Except.error "timeout") "timeout"
      (mkV "melchior" .approve (9/10)) (mkV "balthasar" .reject (4/5))).2 "casper").2.2⟩

/-- C5 counterexample: when the underlying reasoning call fails, the failure
propagates out of `form_verdict` as an exception instead of being converted to
an Info/0.5 Verdict — the claim's "never raises past this boundary" is false
for the call-failure case. -/
theorem c5_counterexample :
    form_verdict "melchior" (fun _ => JsonOutcome.jsonError)
      (Except.error "connection refused") 1 = Except.error "connection refused" := rfl

/-- C5 amended: when the underlying reasoning call succeeds and the reply
fails JSON decoding (`json.JSONDecodeError`), `form_verdict` returns the
degraded Verdict with kind Info and confidence 0.5; both a failure of the
reasoning call itself and a valid-JSON reply of the wrong shape (whose field
accesses raise) propagate out of `form_verdict` as exceptions (absorbed one
level up, by the round collector — see C4). -/
theorem c5_amended_parse_degrade (name response badresp e err : String) (rn : Nat)
    (decode : String → JsonOutcome)
    (hfail : decode response = JsonOutcome.jsonError)
    (hbad : decode badresp = JsonOutcome.illTyped err) :
    form_verdict name decode (Except.error e) rn = Except.error e ∧
    form_verdict name decode (Except.ok response) rn =
      Except.ok
        { brain_name := name
          verdict_type := VerdictType.info
          confidence := 1/2
          summary := "Unable to parse response"
          reasoning := response
          deliberation_round := rn } ∧
    form_verdict name decode (Except.ok badresp) rn = Except.error err := by
  refine ⟨rfl, ?_, ?_⟩
  · simp [form_verdict, parse_verdict_response, degraded_parse_verdict, hfail]
  · simp [form_verdict, parse_verdict_response, hbad]

/-- Decoder for the C5 witness: "not json" fails JSON decoding, "[]" decodes
to a non-object (so its field access raises), everything else is an empty
object. -/
def w5decode : String → JsonOutcome := fun s =>
  if s = "not json" then JsonOutcome.jsonError
  else if s = "[]" then JsonOutcome.illTyped "AttributeError"
  else JsonOutcome.object {}

theorem c5_amended_parse_degrade_witness :
    form_verdict "melchior" w5decode (Except.error "boom") 2 = Except.error "boom" ∧
    form_verdict "melchior" w5decode (Except.ok "not json") 2 =
      Except.ok
        { brain_name := "melchior"
          verdict_type := VerdictType.info
          confidence := 1/2
          summary := "Unable to parse response"
          reasoning := "not json"
          deliberation_round := 2 } ∧
    form_verdict "melchior" w5decode (Except.ok "[]") 2 = Except.error "AttributeError" :=
  c5_amended_parse_degrade "melchior" "not json" "[]" "boom" "AttributeError" 2 w5decode
    rfl rfl

/-- C6 counterexample: the classifier output "nonsense" is not one of the five
valid question types, yet classification returns "yes_no" (the keyword
fallback finds the substring "no"), not "open". -/
theorem c6_counterexample :
    classify_from_response "nonsense" = "yes_no" ∧ ("yes_no" : String) ≠ "open" := by
  exact ⟨rfl, by decide⟩

/-- C6 amended: a classifier output that is not one of the five valid question
types defaults to "open" exactly when its stripped-lowercased form contains
neither "yes" nor "no" as a substring; when it contains either keyword, the
fallback returns "yes_no" instead.  Classification output is always one of
the five valid types, so an invalid classifier reply is never fatal to the
deliberation call. -/
theorem c6_amended_classification (response : String)
    (hvalid : (["yes_no", "open", "analytical", "ethical", "predictive"]).contains
      (stripLower response) = false) :
    ((containsSub (stripLower response) "yes" = false ∧
      containsSub (stripLower response) "no" = false) →
      classify_from_response response = "open") ∧
    ((containsSub (stripLower response) "yes" = true ∨
      containsSub (stripLower response) "no" = true) →
      classify_from_response response = "yes_no") ∧
    ∀ s : String, (["yes_no", "open", "analytical", "ethical", "predictive"]).contains
      (classify_from_response s) = true := by
  refine ⟨?_, ?_, ?_⟩
  · rintro ⟨hyes, hno⟩
    simp only [classify_from_response, hvalid, hyes, hno, Bool.false_eq_true, if_false,
      Bool.or_self]
  · intro hkw
    have hor : (containsSub (stripLower response) "yes" ||
        containsSub (stripLower response) "no") = true := by
      rcases hkw with h | h <;> simp [h]
    simp only [classify_from_response, hvalid, hor, Bool.false_eq_true, if_false, if_true]
  · intro s
    simp only [classify_from_response]
    split
    · assumption
    · split <;> rfl

theorem c6_amended_classification_witness :
    classify_from_response "blurp" = "open" ∧
    classify_from_response "Definitely yes" = "yes_no" :=
  ⟨(c6_amended_classification "blurp" rfl).1 ⟨rfl, rfl⟩,
   (c6_amended_classification "Definitely yes" rfl).2.1 (Or.inl rfl)⟩

theorem runRoundsAux_length_le (roundFn : Nat → Option DeliberationRound → DeliberationRound)
    (maxR : Nat) :
    ∀ (fuel n : Nat) (prev : Option DeliberationRound),
      (runRoundsAux roundFn maxR fuel n prev).length ≤ fuel := by
  intro fuel
  induction fuel with
  | zero => intro n prev; simp [runRoundsAux]
  | succ f ih =>
    intro n prev
    simp only [runRoundsAux]
    split
    · simp
    · simpa using Nat.succ_le_succ (ih _ _)

theorem runRoundsAux_length_pos (roundFn : Nat → Option DeliberationRound → DeliberationRound)
    (maxR : Nat) (fuel n : Nat) (prev : Option DeliberationRound) (hfuel : 1 ≤ fuel) :
    1 ≤ (runRoundsAux roundFn maxR fuel n prev).length := by
  cases fuel with
  | zero => omega
  | succ f =>
    simp only [runRoundsAux]
    split
    · simp
    · simp

/-- C7: with `max_deliberation_rounds = 2`, the round loop produces exactly 2
rounds when round 1 has no consensus and exactly 1 round when it does (early
exit); in general the number of rounds is at least 1 and at most the
configured maximum (whenever that maximum is at least 1). -/
theorem c7_round_cap (cfg : EngineConfig)
    (roundFn : Nat → Option DeliberationRound → DeliberationRound) :
    (cfg.max_deliberation_rounds = 2 →
      ((roundFn 1 none).has_consensus = false → (run_rounds cfg roundFn).length = 2) ∧
      ((roundFn 1 none).has_consensus = true → (run_rounds cfg roundFn).length = 1)) ∧
    (1 ≤ cfg.max_deliberation_rounds →
      1 ≤ (run_rounds cfg roundFn).length ∧
      (run_rounds cfg roundFn).length ≤ cfg.max_deliberation_rounds) := by
  constructor
  · intro hmax
    constructor
    · intro hnc
      simp [run_rounds, hmax, runRoundsAux, hnc]
    · intro hc
      simp [run_rounds, hmax, runRoundsAux, hc]
  · intro hpos
    exact ⟨runRoundsAux_length_pos roundFn cfg.max_deliberation_rounds
        cfg.max_deliberation_rounds 1 none hpos,
      runRoundsAux_length_le roundFn cfg.max_deliberation_rounds
        cfg.max_deliberation_rounds 1 none⟩

/-- Concrete round function for the C7 witness: round 1 yields a consensus
round (all-Approve), later rounds a split round, so the default two-round
configuration early-exits after one round. -/
def w7fn : Nat → Option DeliberationRound → DeliberationRound :=
  fun n _ =>
    if n == 1 then ⟨n, [("a", mkV "a" .approve 1), ("b", mkV "b" .approve 1)], []⟩
    else ⟨n, [("a", mkV "a" .approve 1), ("b", mkV "b" .reject 1)], []⟩

theorem c7_round_cap_witness :
    (w7fn 1 none).has_consensus = true ∧ (run_rounds {} w7fn).length = 1 :=
  ⟨by decide, ((c7_round_cap {} w7fn).1 rfl).2 (by decide)⟩

/-- Concrete final round in which all three agents state the same condition
"x". -/
def w8round : DeliberationRound :=
  ⟨1, [("melchior", mkV "melchior" .approve (9/10) ["x"]),
       ("balthasar", mkV "balthasar" .approve (4/5) ["x"]),
       ("casper", mkV "casper" .approve (7/10) ["x"])], []⟩

/-- C8 counterexample: three agents state the identical condition "x" and the
synthesized (non-Informational) decision's conditions list carries "x" three
times — the field is a plain concatenation, not a deduplicated union. -/
theorem c8_counterexample :
    (synthesize_decision {} { rounds := [w8round] }).conditions = ["x", "x", "x"] ∧
    1 < (((synthesize_decision {} { rounds := [w8round] }).conditions).count "x") := by
  exact ⟨by decide, by decide⟩

/-- C8 amended: for every non-Informational decision, the decision's
conditions field is the in-order concatenation of the final round's
per-verdict condition lists (appended to the decision's pre-synthesis
conditions, which are empty at deliberation start), with duplicates
preserved. -/
theorem c8_amended_conditions_concat (cfg : EngineConfig) (d : Decision)
    (r : DeliberationRound) (hlast : d.rounds.getLast? = some r)
    (hni : (r.verdict_types.all (fun vt => vt == VerdictType.info)) = false) :
    (synthesize_decision cfg d).conditions =
      d.conditions ++
        (r.verdicts.map (fun (p : String × Verdict) => p.2.conditions)).flatten := by
  simp only [synthesize_decision, hlast, hni, Bool.false_eq_true, if_false,
    identify_conditions_eq]
  repeat' split
  all_goals rfl

theorem c8_amended_conditions_concat_witness :
    (synthesize_decision {} { rounds := [w8round] }).conditions = ["x", "x", "x"] := by
  have h := c8_amended_conditions_concat {} { rounds := [w8round] } w8round rfl (by decide)
  exact h.trans (by decide)

/-- C9 counterexample: a backend structured-output confidence of 2.0 is stored
in the parsed Verdict as-is — the produced confidence lies outside [0, 1], so
confidences are not clamped. -/
theorem c9_counterexample :
    parse_verdict_response "melchior"
      (fun _ => JsonOutcome.object { verdict := some "approve", confidence := some 2 })
      "resp" 1 =
      Except.ok (parse_verdict_data "melchior"
        { verdict := some "approve", confidence := some 2 } 1) ∧
    (parse_verdict_data "melchior"
      { verdict := some "approve", confidence := some 2 } 1).confidence = 2 ∧
    ¬ ((parse_verdict_data "melchior"
      { verdict := some "approve", confidence := some 2 } 1).confidence ≤ 1) := by
  refine ⟨rfl, rfl, ?_⟩
  have h : (parse_verdict_data "melchior"
      { verdict := some "approve", confidence := some 2 } 1).confidence = 2 := rfl
  rw [h]
  norm_num

/-- C9 amended: every produced Verdict has a defined confidence — the degraded
parse yields 0.5, the engine's error verdict 0.0, and a parsed verdict takes
the backend's confidence value unchanged (unclamped), defaulting to 0.7 only
when the field is absent; so the value lies in [0, 1] only when the backend's
value does. -/
theorem c9_amended_confidence (name response e : String) (rn : Nat)
    (decode : String → JsonOutcome) (data : VerdictData)
    (hsome : decode response = JsonOutcome.object data) :
    parse_verdict_response name decode response rn =
      Except.ok (parse_verdict_data name data rn) ∧
    (parse_verdict_data name data rn).confidence = data.confidence.getD (7/10) ∧
    (data.confidence = none →
      (parse_verdict_data name data rn).confidence = 7/10) ∧
    (error_verdict name e rn).confidence = 0 ∧
    parse_verdict_response name (fun _ => JsonOutcome.jsonError) response rn =
      Except.ok (degraded_parse_verdict name response rn) ∧
    (degraded_parse_verdict name response rn).confidence = 1/2 := by
  refine ⟨?_, rfl, ?_, rfl, rfl, rfl⟩
  · simp [parse_verdict_response, hsome]
  · intro hnone
    simp [parse_verdict_data, hnone]

theorem c9_amended_confidence_witness :
    parse_verdict_response "casper" (fun _ => JsonOutcome.object { verdict := some "reject" })
      "resp" 1 =
      Except.ok (parse_verdict_data "casper" { verdict := some "reject" } 1) ∧
    (parse_verdict_data "casper" { verdict := some "reject" } 1).confidence =
      (({ verdict := some "reject" } : VerdictData).confidence).getD (7/10) ∧
    ((({ verdict := some "reject" } : VerdictData).confidence = none) →
      (parse_verdict_data "casper" { verdict := some "reject" } 1).confidence = 7/10) ∧
    (error_verdict "casper" "timeout" 1).confidence = 0 ∧
    parse_verdict_response "casper" (fun _ => JsonOutcome.jsonError) "resp" 1 =
      Except.ok (degraded_parse_verdict "casper" "resp" 1) ∧
    (degraded_parse_verdict "casper" "resp" 1).confidence = 1/2 :=
  c9_amended_confidence "casper" "resp" "timeout" 1
    (fun _ => JsonOutcome.object { verdict := some "reject" }) { verdict := some "reject" } rfl

/-- C10: when every agent's round-1 `form_verdict` call raises, the
error-degraded all-Abstain round counts as consensus, the engine exits after
round 1, and synthesis classifies the Decision as Unanimous with final verdict
Abstain — failure-degraded verdicts count toward consensus exactly like
genuine ones. -/
theorem c10_all_failures_unanimous_abstain (cfg : EngineConfig)
    (n1 n2 n3 q cr e1 e2 e3 : String) (f1 f2 f3 : BrainCall)
    (hmax : 1 ≤ cfg.max_deliberation_rounds)
    (h1 : f1 q 1 none = Except.error e1)
    (h2 : f2 q 1 none = Except.error e2)
    (h3 : f3 q 1 none = Except.error e3) :
    (run_deliberation_round [(n1, f1), (n2, f2), (n3, f3)] q 1 none).has_consensus = true ∧
    (deliberate cfg [(n1, f1), (n2, f2), (n3, f3)] q cr).rounds.length = 1 ∧
    (deliberate cfg [(n1, f1), (n2, f2), (n3, f3)] q cr).consensus_type =
      ConsensusType.unanimous ∧
    (deliberate cfg [(n1, f1), (n2, f2), (n3, f3)] q cr).final_verdict =
      some VerdictType.abstain := by
  set brains : List (String × BrainCall) := [(n1, f1), (n2, f2), (n3, f3)] with hbrains
  have hr1 : run_deliberation_round brains q 1 none =
      ⟨1, [(n1, error_verdict n1 e1 1), (n2, error_verdict n2 e2 1),
           (n3, error_verdict n3 e3 1)], []⟩ := by
    simp [run_deliberation_round, get_verdicts, filter_positions, hbrains, h1, h2, h3]
  have htypes : (run_deliberation_round brains q 1 none).verdict_types =
      [VerdictType.abstain, VerdictType.abstain, VerdictType.abstain] := by
    rw [hr1]; rfl
  have hcons : (run_deliberation_round brains q 1 none).has_consensus = true := by
    simp only [DeliberationRound.has_consensus, htypes]; rfl
  have hrounds : run_rounds cfg (run_deliberation_round brains q) =
      [run_deliberation_round brains q 1 none] := by
    obtain ⟨m, hm⟩ := Nat.exists_eq_add_of_le hmax
    cases m with
    | zero => simp [run_rounds, hm, runRoundsAux]
    | succ k =>
      have hlt : decide (1 < cfg.max_deliberation_rounds) = true := by
        simp only [decide_eq_true_eq]; omega
      simp [run_rounds, hm, runRoundsAux, hcons]
  obtain ⟨hall, hfoc⟩ := unanimous_shape VerdictType.abstain (by decide)
  refine ⟨hcons, ?_⟩
  simp only [deliberate, hrounds]
  simp [synthesize_decision, List.getLast?_singleton, htypes, hall, hfoc,
    identify_consensus_eq, identify_final_verdict_eq, identify_rounds_eq]

/-- Concrete always-raising brains for the C10 witness. -/
def w10brains : List (String × BrainCall) :=
  [("melchior", fun _ _ _ => Except.error "down-1"),
   ("balthasar", fun _ _ _ => Except.error "down-2"),
   ("casper", fun _ _ _ => Except.error "down-3")]

theorem c10_all_failures_unanimous_abstain_witness :
    (run_deliberation_round w10brains "q" 1 none).has_consensus = true ∧
    (deliberate {} w10brains "q" "yes_no").rounds.length = 1 ∧
    (deliberate {} w10brains "q" "yes_no").consensus_type = ConsensusType.unanimous ∧
    (deliberate {} w10brains "q" "yes_no").final_verdict = some VerdictType.abstain :=
  c10_all_failures_unanimous_abstain {} "melchior" "balthasar" "casper" "q" "yes_no"
    "down-1" "down-2" "down-3" _ _ _ (by decide) rfl rfl rfl

end Magi
